import Mathlib

/-!
Shallow embedding of cmd/qat_plugin/qat_plugin.go (Intel QAT device plugin):
device classification, driver rebinding, and the periodic scan that builds the
device tree snapshot.  Filesystem reads and sysfs writes are modelled through
an explicit `Host` state; Go errors are modelled by their message strings.
-/

namespace QATPlugin

/-- Go errors are modelled by their message strings; errors.Wrapf(err, fmt, a)
produces the string sprintf(fmt, a) ++ ": " ++ err, as in pkg/errors. -/
abbrev GoErr := String

/-- Source constant at qat_plugin.go:49 (the Go identifier is the keyword
namespace, hence the different Lean name). -/
def qatNamespace : String := "qat.intel.com"

/-- Source constant vendorPrefix = "8086 " at qat_plugin.go:47 (renamed). -/
def vendorPref : String := "8086 "

/-- pluginapi.Healthy of the kubelet device plugin API v1beta1. -/
def Healthy : String := "Healthy"

/-- Character class trimmed by bytes.TrimSpace (the ASCII part of
unicode.IsSpace). -/
def isSpaceGo (c : Char) : Bool :=
  c == ' ' || c == '\t' || c == '\n' || c == '\x0b' || c == '\x0c' || c == '\r'

/-- bytes.TrimSpace on the character list of a string: drop whitespace from
both ends. -/
def trimChars (l : List Char) : List Char :=
  ((l.dropWhile isSpaceGo).reverse.dropWhile isSpaceGo).reverse

/-- strings.TrimPrefix(s, "0x") on the character list: drop one leading hex
marker when present, otherwise return the list unchanged. -/
def stripHex : List Char → List Char
  | '0' :: 'x' :: rest => rest
  | l => l

/-- The normalization in getDeviceID (qat_plugin.go:162):
strings.TrimPrefix(string(bytes.TrimSpace(devID)), "0x"). -/
def normalizeDevID (s : String) : String :=
  String.mk (stripHex (trimChars s.data))

/-- strings.HasPrefix, computed on the character lists (kernel-reducible
replacement for String.startsWith). -/
def strHasPre (s marker : String) : Bool :=
  marker.data.isPrefixOf s.data

/-- strings.TrimPrefix for an arbitrary marker (used with "0000:" in scan). -/
def trimMarker (s marker : String) : String :=
  if strHasPre s marker then String.mk (s.data.drop marker.data.length) else s

/-- Modelled from the spec: the host sysfs state read and written by the
plugin (spec section 6, filesystem contract).  driverDir d is the listing of
the directory of driver d (none when the directory is absent), devFile a the
contents of the device-id attribute of PCI address a, binding a the driver
currently bound to address a.  Writing the driver/unbind control file clears
the binding (the file exists only while a driver is bound; unbindFails injects
a write error), writing a driver's new_id file binds matching unbound devices
(newIDFails injects a write error).  writeLog records every attempted sysfs
write, newest last. -/
structure Host where
  driverDir : String → Option (List String)
  devFile : String → Option String
  binding : String → Option String
  unbindFails : String → Bool
  newIDFails : String → Bool
  uioDir : String → Option (List String)
  iommuGroup : String → Option String
  writeLog : List String

/-- The devicePlugin configuration struct (qat_plugin.go:52). -/
structure DevicePlugin where
  maxDevices : Int
  pciDriverDir : String
  pciDeviceDir : String
  kernelVfDrivers : List String
  dpdkDriver : String

/-- getDeviceID (qat_plugin.go:156): read the device attribute of the given
PCI address, trim whitespace and strip a leading "0x"; a read failure is
wrapped with the device address. -/
def getDeviceID (dp : DevicePlugin) (st : Host) (pciAddr : String) :
    Except GoErr String :=
  match st.devFile pciAddr with
  | none =>
    Except.error ("Cannot obtain ID for the device " ++ pciAddr ++
      ": no such file or directory")
  | some content => Except.ok (normalizeDevID content)

/-- Modelled from the spec: ioutil.WriteFile on the driver/unbind control file
of addr (spec section 6: unbind from kernel driver).  The attempt is logged;
it fails when no driver is bound (the control file is absent) or when
unbindFails holds; on success the binding of addr is cleared. -/
def unbindWrite (st : Host) (addr : String) : Host × Except GoErr Unit :=
  let st0 : Host := { st with writeLog := st.writeLog ++ ["unbind:" ++ addr] }
  match st.binding addr with
  | none => (st0, Except.error "no such file or directory")
  | some _ =>
    if st.unbindFails addr then (st0, Except.error "write error")
    else
      ({ st0 with binding := fun a => if a == addr then none else st.binding a },
       Except.ok ())

/-- Modelled from the spec: ioutil.WriteFile of "8086 " ++ devid on the new_id
control file of driver (spec section 6: bind to target driver).  The attempt
is logged; on success every unbound device whose normalized device attribute
equals devid becomes bound to driver. -/
def newIDWrite (st : Host) (driver devid : String) : Host × Except GoErr Unit :=
  let st0 : Host :=
    { st with writeLog :=
        st.writeLog ++ ["new_id:" ++ driver ++ ":" ++ vendorPref ++ devid] }
  if st.newIDFails driver then (st0, Except.error "write error")
  else
    ({ st0 with binding := fun a =>
        match st.binding a, st.devFile a with
        | none, some content =>
          if normalizeDevID content == devid then some driver else none
        | b, _ => b },
     Except.ok ())

/-- bindDevice (qat_plugin.go:166): unbind the device from its kernel driver,
re-read the device ID, then write vendor and ID to the DPDK driver's new_id
file.  Each write failure is wrapped with the device address; the new_id write
is reached only after a successful unbind write. -/
def bindDevice (dp : DevicePlugin) (st : Host) (id : String) :
    Host × Except GoErr Unit :=
  let devicePCIAddr := "0000:" ++ id
  match unbindWrite st devicePCIAddr with
  | (st1, Except.error e) =>
    (st1, Except.error ("Unbinding from kernel driver failed for the device " ++
      id ++ ": " ++ e))
  | (st1, Except.ok _) =>
    match getDeviceID dp st1 devicePCIAddr with
    | Except.error e => (st1, Except.error e)
    | Except.ok vfdevID =>
      match newIDWrite st1 dp.dpdkDriver vfdevID with
      | (st2, Except.error e) =>
        (st2, Except.error ("Binding to the DPDK driver failed for the device " ++
          id ++ ": " ++ e))
      | (st2, Except.ok _) => (st2, Except.ok ())

/-- isValidKerneDriver (qat_plugin.go:189, source spelling kept). -/
def isValidKerneDriver (kernelvfDriver : String) : Bool :=
  kernelvfDriver == "dh895xccvf" || kernelvfDriver == "c6xxvf" ||
  kernelvfDriver == "c3xxxvf" || kernelvfDriver == "d15xxvf"

/-- isValidDpdkDeviceDriver (qat_plugin.go:197). -/
def isValidDpdkDeviceDriver (dpdkDriver : String) : Bool :=
  dpdkDriver == "igb_uio" || dpdkDriver == "vfio-pci"

/-- isValidVfDeviceID (qat_plugin.go:204): the allow-list of known VF device
IDs. -/
def isValidVfDeviceID (vfDevID : String) : Bool :=
  vfDevID == "0442" || vfDevID == "0443" || vfDevID == "37c9" || vfDevID == "19e3"

/-- Split a character list at a separator (kernel-reducible replacement for
String.splitOn with a one-character separator). -/
def splitOnChar (sep : Char) : List Char → List (List Char)
  | [] => [[]]
  | c :: rest =>
    if c == sep then [] :: splitOnChar sep rest
    else
      match splitOnChar sep rest with
      | [] => [[c]]
      | h :: t => (c :: h) :: t

/-- path.Base of a slash-separated path: the last nonempty component ("/" for
an all-slash path, "." for the empty string). -/
def pathBase (p : String) : String :=
  match ((splitOnChar '/' p.data).filter (fun s => !(s.isEmpty))).getLast? with
  | some x => String.mk x
  | none => if p == "" then "." else "/"

/-- getDpdkDevice (qat_plugin.go:84): resolve the user-space handle of a VF.
For igb_uio, the first entry of the device's uio subdirectory; for vfio-pci,
the base name of the resolved iommu_group symlink. -/
def getDpdkDevice (dp : DevicePlugin) (st : Host) (id : String) :
    Except GoErr String :=
  let devicePCIAdd := "0000:" ++ id
  if dp.dpdkDriver == "igb_uio" then
    match st.uioDir devicePCIAdd with
    | none => Except.error "no such file or directory"
    | some files =>
      match files with
      | [] => Except.error "No devices found"
      | f :: _ => Except.ok f
  else if dp.dpdkDriver == "vfio-pci" then
    match st.iommuGroup devicePCIAdd with
    | none => Except.error "no such file or directory"
    | some group => Except.ok (pathBase group)
  else Except.error "Unknown DPDK driver"

/-- getDpdkDeviceNames (qat_plugin.go:114): the device nodes for a VF under
the DPDK driver. -/
def getDpdkDeviceNames (dp : DevicePlugin) (st : Host) (id : String) :
    Except GoErr (List String) :=
  match getDpdkDevice dp st id with
  | Except.error e => Except.error e
  | Except.ok dpdkDeviceName =>
    if dp.dpdkDriver == "igb_uio" then Except.ok ["/dev/" ++ dpdkDeviceName]
    else if dp.dpdkDriver == "vfio-pci" then
      Except.ok ["/dev/vfio/" ++ dpdkDeviceName, "/dev/vfio/vfio"]
    else Except.error "Unknown DPDK driver"

/-- getDpdkMountPaths (qat_plugin.go:137): the mount paths for a VF under the
DPDK driver. -/
def getDpdkMountPaths (dp : DevicePlugin) (st : Host) (id : String) :
    Except GoErr (List String) :=
  match getDpdkDevice dp st id with
  | Except.error e => Except.error e
  | Except.ok dpdkDeviceName =>
    if dp.dpdkDriver == "igb_uio" then
      Except.ok ["/sys/class/uio/" ++ dpdkDeviceName ++ "/device"]
    else if dp.dpdkDriver == "vfio-pci" then Except.ok []
    else Except.error "Unknown DPDK driver"

/-- deviceplugin.DeviceInfo: health state, device node paths, mount paths and
environment variables of one descriptor. -/
structure DeviceInfo where
  state : String
  nodes : List String
  mounts : List String
  envs : List (String × String)
deriving DecidableEq

/-- The Go zero value deviceplugin.DeviceInfo given out by getDeviceInfo for
device IDs outside the allow-list. -/
def emptyDeviceInfo : DeviceInfo :=
  { state := "", nodes := [], mounts := [], envs := [] }

/-- Modelled from the spec: deviceplugin.DeviceTree (internal/deviceplugin is
not under src/): a mapping from resource-class name and device address to a
Device Descriptor (spec section 3), as an association list with unique keys. -/
abbrev DeviceTree := List ((String × String) × DeviceInfo)

/-- Modelled from the spec: deviceplugin.NewDeviceTree, the empty snapshot. -/
def NewDeviceTree : DeviceTree := []

/-- Modelled from the spec: DeviceTree.AddDevice stores a descriptor under
resource class cls and device id, replacing any previous entry (map
insertion). -/
def AddDevice (t : DeviceTree) (cls id : String) (info : DeviceInfo) :
    DeviceTree :=
  (t.filter (fun p => !(p.1.1 == cls && p.1.2 == id))) ++ [((cls, id), info)]

/-- The descriptor stored in the snapshot under class cls and device id. -/
def treeLookup (t : DeviceTree) (cls id : String) : Option DeviceInfo :=
  (t.find? (fun p => p.1.1 == cls && p.1.2 == id)).map (fun p => p.2)

/-- The snapshot has an entry under class cls and device id. -/
def treeHasKey (t : DeviceTree) (cls id : String) : Prop :=
  ∃ info, ((cls, id), info) ∈ t

/-- The environment-variable key built by getDeviceInfo (qat_plugin.go:259 and
266): the resource namespace with ".intel.com" trimmed, upper-cased, followed
by the ordinal. -/
def envKey (counter : Int) : String :=
  String.mk (((if ".intel.com".data.isSuffixOf qatNamespace.data then
      qatNamespace.data.take (qatNamespace.data.length - ".intel.com".data.length)
    else qatNamespace.data).map Char.toUpper)) ++ toString counter

/-- getDeviceInfo (qat_plugin.go:233): classify the device; return the empty
DeviceInfo with a nil error for IDs outside the allow-list; otherwise call
bindDevice unconditionally, resolve nodes and mounts, and build the healthy
descriptor.  Besides the Go results the embedding returns the updated host and
the list of addresses passed to bindDevice during the call. -/
def getDeviceInfo (dp : DevicePlugin) (st : Host) (vfpciaddr : String)
    (counter : Int) : Host × List String × Except GoErr DeviceInfo :=
  let fileName := "0000:" ++ vfpciaddr
  match getDeviceID dp st fileName with
  | Except.error e =>
    (st, [],
     Except.error ("Cannot obtain deviceID for the device with PCI address: " ++
       fileName ++ ": " ++ e))
  | Except.ok vfdevID =>
    if !(isValidVfDeviceID vfdevID) then (st, [], Except.ok emptyDeviceInfo)
    else
      match bindDevice dp st vfpciaddr with
      | (st1, Except.error e) => (st1, [vfpciaddr], Except.error e)
      | (st1, Except.ok _) =>
        match getDpdkDeviceNames dp st1 vfpciaddr with
        | Except.error e => (st1, [vfpciaddr], Except.error e)
        | Except.ok devNodes =>
          match getDpdkMountPaths dp st1 vfpciaddr with
          | Except.error e => (st1, [vfpciaddr], Except.error e)
          | Except.ok devMounts =>
            (st1, [vfpciaddr],
             Except.ok { state := Healthy, nodes := devNodes,
                         mounts := devMounts,
                         envs := [(envKey counter, fileName)] })

/-- Bookkeeping for one pass of the inner file loop of scan
(qat_plugin.go:281): the updated host and tree, the file names this pass
appended to filesNew, the updated dpdkDriverBound counter, the bindDevice
invocations and the AddDevice calls it performed. -/
structure ScanStep where
  st : Host
  filesNew : List String
  bound : Int
  bindCalls : List String
  adds : List (String × DeviceInfo)
  tree : DeviceTree

/-- The inner file loop of scan (qat_plugin.go:281-298) over one driver's
directory listing: every "0000:"-prefixed name is appended to filesNew; a name
listed for the DPDK driver additionally bumps dpdkDriverBound and - unless the
counter has passed maxDevices, which breaks out of the loop - is passed to
getDeviceInfo and, on success, added to the tree. -/
def scanFiles (dp : DevicePlugin) (driver : String) :
    List String → Host → Int → DeviceTree → ScanStep
  | [], st, bound, tree => ⟨st, [], bound, [], [], tree⟩
  | f :: rest, st, bound, tree =>
    if strHasPre f "0000:" then
      if driver == dp.dpdkDriver then
        if bound + 1 > dp.maxDevices then ⟨st, [f], bound + 1, [], [], tree⟩
        else
          match getDeviceInfo dp st (trimMarker f "0000:") (bound + 1) with
          | (st1, tr1, Except.error _) =>
            let r := scanFiles dp driver rest st1 (bound + 1) tree
            ⟨r.st, f :: r.filesNew, r.bound, tr1 ++ r.bindCalls, r.adds, r.tree⟩
          | (st1, tr1, Except.ok info) =>
            let r := scanFiles dp driver rest st1 (bound + 1)
              (AddDevice tree "generic" (trimMarker f "0000:") info)
            ⟨r.st, f :: r.filesNew, r.bound, tr1 ++ r.bindCalls,
             (trimMarker f "0000:", info) :: r.adds, r.tree⟩
      else
        let r := scanFiles dp driver rest st bound tree
        ⟨r.st, f :: r.filesNew, r.bound, r.bindCalls, r.adds, r.tree⟩
    else
      let r := scanFiles dp driver rest st bound tree
      ⟨r.st, r.filesNew, r.bound, r.bindCalls, r.adds, r.tree⟩

/-- The driver loop of scan (qat_plugin.go:275-299): for each driver in turn,
list its directory - a missing directory is a logged skip - and run the inner
file loop, threading host, counter and tree. -/
def scanDrivers (dp : DevicePlugin) :
    List String → Host → Int → DeviceTree → ScanStep
  | [], st, bound, tree => ⟨st, [], bound, [], [], tree⟩
  | d :: rest, st, bound, tree =>
    match st.driverDir d with
    | none => scanDrivers dp rest st bound tree
    | some files =>
      let r1 := scanFiles dp d files st bound tree
      let r2 := scanDrivers dp rest r1.st r1.bound r1.tree
      ⟨r2.st, r1.filesNew ++ r2.filesNew, r2.bound,
       r1.bindCalls ++ r2.bindCalls, r1.adds ++ r2.adds, r2.tree⟩

/-- Bookkeeping for the rebind loop of scan (qat_plugin.go:300-316): the
updated host and tree, the addresses passed to getDeviceInfo, the bindDevice
invocations and the AddDevice calls performed. -/
structure RebindStep where
  st : Host
  calls : List String
  bindCalls : List String
  adds : List (String × DeviceInfo)
  tree : DeviceTree

/-- The rebind loop of scan (qat_plugin.go:303-315) over filesNew: bump n and
break once n exceeds devicesNeeded; otherwise pass the address to
getDeviceInfo with the fixed dpdkDriverBound counter and, on success, add the
descriptor to the tree. -/
def rebindFiles (dp : DevicePlugin) (bound need : Int) :
    List String → Int → Host → DeviceTree → RebindStep
  | [], _, st, tree => ⟨st, [], [], [], tree⟩
  | f :: rest, n, st, tree =>
    if n + 1 > need then ⟨st, [], [], [], tree⟩
    else
      match getDeviceInfo dp st (trimMarker f "0000:") bound with
      | (st1, tr1, Except.error _) =>
        let r := rebindFiles dp bound need rest (n + 1) st1 tree
        ⟨r.st, trimMarker f "0000:" :: r.calls, tr1 ++ r.bindCalls, r.adds, r.tree⟩
      | (st1, tr1, Except.ok info) =>
        let r := rebindFiles dp bound need rest (n + 1) st1
          (AddDevice tree "generic" (trimMarker f "0000:") info)
        ⟨r.st, trimMarker f "0000:" :: r.calls, tr1 ++ r.bindCalls,
         (trimMarker f "0000:", info) :: r.adds, r.tree⟩

/-- Phase 1 of scan (qat_plugin.go:273-299): the driver loop over the kernel
VF drivers with the DPDK driver appended last, starting from counter 0. -/
def scanPhase1 (dp : DevicePlugin) (st : Host) (tree : DeviceTree) : ScanStep :=
  scanDrivers dp (dp.kernelVfDrivers ++ [dp.dpdkDriver]) st 0 tree

/-- Phase 2 of scan (qat_plugin.go:300-316): the rebind loop over filesNew
with devicesNeeded = maxDevices - dpdkDriverBound and the counter frozen at
dpdkDriverBound. -/
def scanPhase2 (dp : DevicePlugin) (st : Host) (tree : DeviceTree) : RebindStep :=
  rebindFiles dp (scanPhase1 dp st tree).bound
    (dp.maxDevices - (scanPhase1 dp st tree).bound)
    (scanPhase1 dp st tree).filesNew 0
    (scanPhase1 dp st tree).st (scanPhase1 dp st tree).tree

/-- The observable outcome of one scan call (qat_plugin.go:272-318): the Go
results (tree and error, the latter literally nil on every path) together with
the embedding's bookkeeping of what the cycle did. -/
structure ScanResult where
  st : Host
  tree : DeviceTree
  err : Option GoErr
  filesNew : List String
  dpdkDriverBound : Int
  bindCalls : List String
  phase1Adds : List (String × DeviceInfo)
  phase2Calls : List String
  phase2Adds : List (String × DeviceInfo)

/-- scan (qat_plugin.go:272): run phase 1, then - only when dpdkDriverBound is
still below maxDevices - the rebind loop of phase 2; return the tree and a nil
error. -/
def scan (dp : DevicePlugin) (st : Host) (devTree : DeviceTree) : ScanResult :=
  if (scanPhase1 dp st devTree).bound < dp.maxDevices then
    { st := (scanPhase2 dp st devTree).st
      tree := (scanPhase2 dp st devTree).tree
      err := none
      filesNew := (scanPhase1 dp st devTree).filesNew
      dpdkDriverBound := (scanPhase1 dp st devTree).bound
      bindCalls := (scanPhase1 dp st devTree).bindCalls ++
        (scanPhase2 dp st devTree).bindCalls
      phase1Adds := (scanPhase1 dp st devTree).adds
      phase2Calls := (scanPhase2 dp st devTree).calls
      phase2Adds := (scanPhase2 dp st devTree).adds }
  else
    { st := (scanPhase1 dp st devTree).st
      tree := (scanPhase1 dp st devTree).tree
      err := none
      filesNew := (scanPhase1 dp st devTree).filesNew
      dpdkDriverBound := (scanPhase1 dp st devTree).bound
      bindCalls := (scanPhase1 dp st devTree).bindCalls
      phase1Adds := (scanPhase1 dp st devTree).adds
      phase2Calls := []
      phase2Adds := [] }

/-- The Scan loop (qat_plugin.go:70-82): devTreeIn is allocated once before
the loop; AddDevice mutates that shared map, so the tree scan returns is the
very tree the next iteration passes in, which the embedding renders by
threading the returned tree.  hosts k is the host state observed by cycle k
(the external world may change between the fixed sleeps); the list collects
the snapshots handed to notifier.Notify, one per completed cycle, stopping
early only if scan returns an error. -/
def runCycles (dp : DevicePlugin) (hosts : Nat → Host) :
    Nat → DeviceTree → List DeviceTree
  | 0, _ => []
  | n + 1, tree =>
    match (scan dp (hosts 0) tree).err with
    | some _ => []
    | none =>
      (scan dp (hosts 0) tree).tree ::
        runCycles dp (fun k => hosts (k + 1)) n (scan dp (hosts 0) tree).tree

/-- Scan (qat_plugin.go:70) observed for n cycles, starting from the single
NewDeviceTree allocated before the first iteration. -/
def Scan (dp : DevicePlugin) (hosts : Nat → Host) (n : Nat) : List DeviceTree :=
  runCycles dp hosts n NewDeviceTree

/-- The startup validation in main (qat_plugin.go:332-343): the process calls
os.Exit(1) before the first scan iff the DPDK driver name or some kernel VF
driver name is invalid. -/
def mainExitsEarly (dpdkDriver : String) (kernelDrivers : List String) : Bool :=
  !(isValidDpdkDeviceDriver dpdkDriver) ||
    kernelDrivers.any (fun d => !(isValidKerneDriver d))

/-! Concrete host fixtures used by the per-claim theorems. -/

/-- Configuration with no kernel VF drivers and the vfio-pci DPDK driver. -/
def dpC1 : DevicePlugin :=
  { maxDevices := 32, pciDriverDir := "/sys/bus/pci/drivers",
    pciDeviceDir := "/sys/bus/pci/devices",
    kernelVfDrivers := [], dpdkDriver := "vfio-pci" }

/-- One device listed under vfio-pci whose device ID 0x1234 is outside the
allow-list. -/
def hostC1 : Host :=
  { driverDir := fun d => if d == "vfio-pci" then some ["0000:03:01.0"] else none
    devFile := fun a => if a == "0000:03:01.0" then some "0x1234" else none
    binding := fun a => if a == "0000:03:01.0" then some "vfio-pci" else none
    unbindFails := fun _ => false
    newIDFails := fun _ => false
    uioDir := fun _ => none
    iommuGroup := fun a =>
      if a == "0000:03:01.0" then some "/sys/kernel/iommu_groups/9" else none
    writeLog := [] }

/-- Configuration with one kernel VF driver (c6xxvf) and vfio-pci. -/
def dpC3 : DevicePlugin :=
  { maxDevices := 32, pciDriverDir := "/sys/bus/pci/drivers",
    pciDeviceDir := "/sys/bus/pci/devices",
    kernelVfDrivers := ["c6xxvf"], dpdkDriver := "vfio-pci" }

/-- One valid VF bound to the kernel driver c6xxvf and one valid VF already
bound to vfio-pci. -/
def hostC3 : Host :=
  { driverDir := fun d =>
      if d == "c6xxvf" then some ["0000:01:00.0"]
      else if d == "vfio-pci" then some ["0000:02:00.0"] else none
    devFile := fun a =>
      if a == "0000:01:00.0" then some "0x0443"
      else if a == "0000:02:00.0" then some "0x0442" else none
    binding := fun a =>
      if a == "0000:01:00.0" then some "c6xxvf"
      else if a == "0000:02:00.0" then some "vfio-pci" else none
    unbindFails := fun _ => false
    newIDFails := fun _ => false
    uioDir := fun _ => none
    iommuGroup := fun a =>
      if a == "0000:01:00.0" then some "/sys/kernel/iommu_groups/10"
      else if a == "0000:02:00.0" then some "/sys/kernel/iommu_groups/11" else none
    writeLog := [] }

/-- Configuration for the retention counterexample. -/
def dpC4 : DevicePlugin :=
  { maxDevices := 32, pciDriverDir := "/sys/bus/pci/drivers",
    pciDeviceDir := "/sys/bus/pci/devices",
    kernelVfDrivers := ["c6xxvf"], dpdkDriver := "vfio-pci" }

/-- Cycle 0 of the retention counterexample: one valid VF bound to vfio-pci. -/
def hostC4a : Host :=
  { driverDir := fun d => if d == "vfio-pci" then some ["0000:03:00.0"] else none
    devFile := fun a => if a == "0000:03:00.0" then some "0x0442" else none
    binding := fun a => if a == "0000:03:00.0" then some "vfio-pci" else none
    unbindFails := fun _ => false
    newIDFails := fun _ => false
    uioDir := fun _ => none
    iommuGroup := fun a =>
      if a == "0000:03:00.0" then some "/sys/kernel/iommu_groups/5" else none
    writeLog := [] }

/-- Cycle 1 of the retention counterexample: the device is gone, every driver
directory is absent. -/
def hostC4b : Host :=
  { driverDir := fun _ => none
    devFile := fun _ => none
    binding := fun _ => none
    unbindFails := fun _ => false
    newIDFails := fun _ => false
    uioDir := fun _ => none
    iommuGroup := fun _ => none
    writeLog := [] }

/-- The host sequence of the retention counterexample. -/
def hostsC4 : Nat → Host := fun n => if n == 0 then hostC4a else hostC4b

/-- The descriptor built for 0000:03:00.0 in cycle 0. -/
def infoC4 : DeviceInfo :=
  { state := "Healthy", nodes := ["/dev/vfio/5", "/dev/vfio/vfio"],
    mounts := [], envs := [("QAT1", "0000:03:00.0")] }

/-- Configuration with no kernel VF drivers for the rebinder claim. -/
def dpC5 : DevicePlugin :=
  { maxDevices := 32, pciDriverDir := "/sys/bus/pci/drivers",
    pciDeviceDir := "/sys/bus/pci/devices",
    kernelVfDrivers := [], dpdkDriver := "vfio-pci" }

/-- A single valid VF observed bound to the target (vfio-pci) driver. -/
def hostC5 : Host :=
  { driverDir := fun d => if d == "vfio-pci" then some ["0000:02:00.0"] else none
    devFile := fun a => if a == "0000:02:00.0" then some "0x0442" else none
    binding := fun a => if a == "0000:02:00.0" then some "vfio-pci" else none
    unbindFails := fun _ => false
    newIDFails := fun _ => false
    uioDir := fun _ => none
    iommuGroup := fun a =>
      if a == "0000:02:00.0" then some "/sys/kernel/iommu_groups/3" else none
    writeLog := [] }

/-- Configuration for the failed-bind claim. -/
def dpC6 : DevicePlugin :=
  { maxDevices := 32, pciDriverDir := "/sys/bus/pci/drivers",
    pciDeviceDir := "/sys/bus/pci/devices",
    kernelVfDrivers := ["c6xxvf"], dpdkDriver := "vfio-pci" }

/-- One valid VF bound to the kernel driver c6xxvf; the unbind write succeeds
but every new_id write fails. -/
def hostC6 : Host :=
  { driverDir := fun d =>
      if d == "c6xxvf" then some ["0000:01:00.0"]
      else if d == "vfio-pci" then some [] else none
    devFile := fun a => if a == "0000:01:00.0" then some "0x0443" else none
    binding := fun a => if a == "0000:01:00.0" then some "c6xxvf" else none
    unbindFails := fun _ => false
    newIDFails := fun _ => true
    uioDir := fun _ => none
    iommuGroup := fun a =>
      if a == "0000:01:00.0" then some "/sys/kernel/iommu_groups/2" else none
    writeLog := [] }

/-- Configuration with maximum device count 1 for the cap scenario. -/
def dpC2 : DevicePlugin :=
  { maxDevices := 1, pciDriverDir := "/sys/bus/pci/drivers",
    pciDeviceDir := "/sys/bus/pci/devices",
    kernelVfDrivers := ["c6xxvf"], dpdkDriver := "vfio-pci" }

/-- Two valid VFs already bound to the target (vfio-pci) driver. -/
def hostC2 : Host :=
  { driverDir := fun d =>
      if d == "vfio-pci" then some ["0000:02:00.0", "0000:02:00.1"] else none
    devFile := fun a =>
      if a == "0000:02:00.0" then some "0x0442"
      else if a == "0000:02:00.1" then some "0x0442" else none
    binding := fun a =>
      if a == "0000:02:00.0" then some "vfio-pci"
      else if a == "0000:02:00.1" then some "vfio-pci" else none
    unbindFails := fun _ => false
    newIDFails := fun _ => false
    uioDir := fun _ => none
    iommuGroup := fun a =>
      if a == "0000:02:00.0" then some "/sys/kernel/iommu_groups/7"
      else if a == "0000:02:00.1" then some "/sys/kernel/iommu_groups/8" else none
    writeLog := [] }

/-- Configuration with maximum device count 3 for the ordinal claim. -/
def dpC7 : DevicePlugin :=
  { maxDevices := 3, pciDriverDir := "/sys/bus/pci/drivers",
    pciDeviceDir := "/sys/bus/pci/devices",
    kernelVfDrivers := ["c6xxvf"], dpdkDriver := "vfio-pci" }

/-- Two valid kernel-bound VFs and one valid VF already bound to vfio-pci. -/
def hostC7 : Host :=
  { driverDir := fun d =>
      if d == "c6xxvf" then some ["0000:01:00.0", "0000:01:00.1"]
      else if d == "vfio-pci" then some ["0000:02:00.0"] else none
    devFile := fun a =>
      if a == "0000:01:00.0" then some "0x0443"
      else if a == "0000:01:00.1" then some "0x0443"
      else if a == "0000:02:00.0" then some "0x0442" else none
    binding := fun a =>
      if a == "0000:01:00.0" then some "c6xxvf"
      else if a == "0000:01:00.1" then some "c6xxvf"
      else if a == "0000:02:00.0" then some "vfio-pci" else none
    unbindFails := fun _ => false
    newIDFails := fun _ => false
    uioDir := fun _ => none
    iommuGroup := fun a =>
      if a == "0000:01:00.0" then some "/sys/kernel/iommu_groups/10"
      else if a == "0000:01:00.1" then some "/sys/kernel/iommu_groups/11"
      else if a == "0000:02:00.0" then some "/sys/kernel/iommu_groups/12" else none
    writeLog := [] }

/-- Configuration with two kernel VF drivers for the absent-directory claim. -/
def dpC8 : DevicePlugin :=
  { maxDevices := 32, pciDriverDir := "/sys/bus/pci/drivers",
    pciDeviceDir := "/sys/bus/pci/devices",
    kernelVfDrivers := ["dh895xccvf", "c6xxvf"], dpdkDriver := "vfio-pci" }

/-- One valid VF bound to dh895xccvf; the c6xxvf directory is absent (module
not loaded); the vfio-pci directory is present and empty. -/
def hostC8 : Host :=
  { driverDir := fun d =>
      if d == "dh895xccvf" then some ["0000:04:00.0"]
      else if d == "vfio-pci" then some [] else none
    devFile := fun a => if a == "0000:04:00.0" then some "0x0442" else none
    binding := fun a => if a == "0000:04:00.0" then some "dh895xccvf" else none
    unbindFails := fun _ => false
    newIDFails := fun _ => false
    uioDir := fun _ => none
    iommuGroup := fun a =>
      if a == "0000:04:00.0" then some "/sys/kernel/iommu_groups/4" else none
    writeLog := [] }

/-- Host exposing device-attribute contents "0x1234", "1234" and " 0x1234\n"
for the classifier round-trip claim. -/
def hostC9 : Host :=
  { driverDir := fun _ => none
    devFile := fun a =>
      if a == "0000:aa:00.0" then some "0x1234"
      else if a == "0000:bb:00.0" then some "1234"
      else if a == "0000:cc:00.0" then some " 0x1234\n" else none
    binding := fun _ => none
    unbindFails := fun _ => false
    newIDFails := fun _ => false
    uioDir := fun _ => none
    iommuGroup := fun _ => none
    writeLog := [] }


/-- Configuration used by the classifier round-trip claim. -/
def dpC9 : DevicePlugin :=
  { maxDevices := 32, pciDriverDir := "/sys/bus/pci/drivers",
    pciDeviceDir := "/sys/bus/pci/devices",
    kernelVfDrivers := [], dpdkDriver := "vfio-pci" }

theorem scanFiles_bounds (dp : DevicePlugin) (driver : String)
    (fs : List String) :
    ∀ (st : Host) (bound : Int) (tree : DeviceTree),
      bound ≤ (scanFiles dp driver fs st bound tree).bound ∧
      bound + ((scanFiles dp driver fs st bound tree).adds.length : Int) ≤
        (scanFiles dp driver fs st bound tree).bound ∧
      (0 < (scanFiles dp driver fs st bound tree).adds.length →
        bound + ((scanFiles dp driver fs st bound tree).adds.length : Int) ≤
          dp.maxDevices) := by
  induction fs with
  | nil => intro st bound tree; simp [scanFiles]
  | cons f rest ih =>
    intro st bound tree
    simp only [scanFiles]
    split
    · split
      · split
        next hbreak => simp
        next hbreak =>
          split
          next st1 tr1 e heq =>
            have h := ih st1 (bound + 1) tree
            dsimp only
            omega
          next st1 tr1 info heq =>
            have h := ih st1 (bound + 1)
              (AddDevice tree "generic" (trimMarker f "0000:") info)
            dsimp only
            simp only [List.length_cons]
            push_cast
            omega
      · exact ih st bound tree
    · exact ih st bound tree


theorem scanDrivers_bounds (dp : DevicePlugin) (ds : List String) :
    ∀ (st : Host) (bound : Int) (tree : DeviceTree),
      bound ≤ (scanDrivers dp ds st bound tree).bound ∧
      bound + ((scanDrivers dp ds st bound tree).adds.length : Int) ≤
        (scanDrivers dp ds st bound tree).bound ∧
      (0 < (scanDrivers dp ds st bound tree).adds.length →
        bound + ((scanDrivers dp ds st bound tree).adds.length : Int) ≤
          dp.maxDevices) := by
  induction ds with
  | nil => intro st bound tree; simp [scanDrivers]
  | cons d rest ih =>
    intro st bound tree
    simp only [scanDrivers]
    split
    · exact ih st bound tree
    next files heq =>
      have h1 := scanFiles_bounds dp d files st bound tree
      have h2 := ih (scanFiles dp d files st bound tree).st
        (scanFiles dp d files st bound tree).bound
        (scanFiles dp d files st bound tree).tree
      dsimp only
      simp only [List.length_append]
      push_cast
      omega

theorem rebindFiles_adds_le (dp : DevicePlugin) (bound need : Int)
    (fs : List String) :
    ∀ (n : Int) (st : Host) (tree : DeviceTree),
      0 < (rebindFiles dp bound need fs n st tree).adds.length →
      n + ((rebindFiles dp bound need fs n st tree).adds.length : Int) ≤ need := by
  induction fs with
  | nil => intro n st tree; simp [rebindFiles]
  | cons f rest ih =>
    intro n st tree
    simp only [rebindFiles]
    split
    next hbreak => simp
    next hbreak =>
      split
      next st1 tr1 e heq =>
        have h := ih (n + 1) st1 tree
        dsimp only
        omega
      next st1 tr1 info heq =>
        have h := ih (n + 1) st1
          (AddDevice tree "generic" (trimMarker f "0000:") info)
        dsimp only
        simp only [List.length_cons]
        push_cast
        omega

theorem getDeviceInfo_ok_spec (dp : DevicePlugin) (st : Host) (a : String)
    (c : Int) :
    ∀ (st1 : Host) (tr : List String) (info : DeviceInfo),
      getDeviceInfo dp st a c = (st1, tr, Except.ok info) →
      info.state = Healthy →
      a ∈ tr ∧ info.envs = [(envKey c, "0000:" ++ a)] := by
  intro st1 tr info h hstate
  rcases hgid : getDeviceID dp st ("0000:" ++ a) with e | vfdevID
  · simp only [getDeviceInfo, hgid] at h
    simp at h
  · simp only [getDeviceInfo, hgid] at h
    cases hval : isValidVfDeviceID vfdevID
    · simp only [hval, Bool.not_false, if_true, Prod.mk.injEq,
        Except.ok.injEq] at h
      rw [← h.2.2] at hstate
      simp [emptyDeviceInfo, Healthy] at hstate
    · simp only [hval, Bool.not_true, Bool.false_eq_true, if_false] at h
      rcases hbd : bindDevice dp st a with ⟨st2, e | u⟩
      · simp only [hbd] at h
        simp at h
      · simp only [hbd] at h
        rcases hnm : getDpdkDeviceNames dp st2 a with e | devNodes
        · simp only [hnm] at h
          simp at h
        · simp only [hnm] at h
          rcases hmp : getDpdkMountPaths dp st2 a with e | devMounts
          · simp only [hmp] at h
            simp at h
          · simp only [hmp, Prod.mk.injEq, Except.ok.injEq] at h
            rcases h with ⟨h1, h2, h3⟩
            constructor
            · rw [← h2]; simp
            · rw [← h3]

theorem scanFiles_bind_of_healthy (dp : DevicePlugin) (driver : String)
    (fs : List String) :
    ∀ (st : Host) (bound : Int) (tree : DeviceTree) (p : String × DeviceInfo),
      p ∈ (scanFiles dp driver fs st bound tree).adds → p.2.state = Healthy →
      p.1 ∈ (scanFiles dp driver fs st bound tree).bindCalls := by
  induction fs with
  | nil => intro st bound tree p hp; simp [scanFiles] at hp
  | cons f rest ih =>
    intro st bound tree p hp hstate
    revert hp
    simp only [scanFiles]
    split
    · split
      · split
        next hbreak => simp
        next hbreak =>
          split
          next st1 tr1 e heq =>
            intro hp
            dsimp only at hp ⊢
            exact List.mem_append_right tr1 (ih st1 (bound + 1) tree p hp hstate)
          next st1 tr1 info heq =>
            intro hp
            dsimp only at hp ⊢
            rcases List.mem_cons.mp hp with hhead | htail
            · have hspec := getDeviceInfo_ok_spec dp st (trimMarker f "0000:")
                (bound + 1) st1 tr1 info heq (by rw [hhead] at hstate; exact hstate)
              rw [hhead]
              exact List.mem_append_left _ hspec.1
            · exact List.mem_append_right tr1
                (ih st1 (bound + 1)
                  (AddDevice tree "generic" (trimMarker f "0000:") info) p htail hstate)
      · intro hp; exact ih st bound tree p hp hstate
    · intro hp; exact ih st bound tree p hp hstate

theorem scanDrivers_bind_of_healthy (dp : DevicePlugin) (ds : List String) :
    ∀ (st : Host) (bound : Int) (tree : DeviceTree) (p : String × DeviceInfo),
      p ∈ (scanDrivers dp ds st bound tree).adds → p.2.state = Healthy →
      p.1 ∈ (scanDrivers dp ds st bound tree).bindCalls := by
  induction ds with
  | nil => intro st bound tree p hp; simp [scanDrivers] at hp
  | cons d rest ih =>
    intro st bound tree p hp hstate
    revert hp
    simp only [scanDrivers]
    split
    · intro hp; exact ih st bound tree p hp hstate
    next files heq =>
      intro hp
      dsimp only at hp ⊢
      rcases List.mem_append.mp hp with h1 | h2
      · exact List.mem_append_left _
          (scanFiles_bind_of_healthy dp d files st bound tree p h1 hstate)
      · exact List.mem_append_right _
          (ih (scanFiles dp d files st bound tree).st
            (scanFiles dp d files st bound tree).bound
            (scanFiles dp d files st bound tree).tree p h2 hstate)

theorem rebindFiles_envs (dp : DevicePlugin) (bound need : Int)
    (fs : List String) :
    ∀ (n : Int) (st : Host) (tree : DeviceTree) (p : String × DeviceInfo),
      p ∈ (rebindFiles dp bound need fs n st tree).adds → p.2.state = Healthy →
      p.2.envs = [(envKey bound, "0000:" ++ p.1)] := by
  induction fs with
  | nil => intro n st tree p hp; simp [rebindFiles] at hp
  | cons f rest ih =>
    intro n st tree p hp hstate
    revert hp
    simp only [rebindFiles]
    split
    next hbreak => simp
    next hbreak =>
      split
      next st1 tr1 e heq =>
        intro hp
        dsimp only at hp
        exact ih (n + 1) st1 tree p hp hstate
      next st1 tr1 info heq =>
        intro hp
        dsimp only at hp
        rcases List.mem_cons.mp hp with hhead | htail
        · have hspec := getDeviceInfo_ok_spec dp st (trimMarker f "0000:")
            bound st1 tr1 info heq (by rw [hhead] at hstate; exact hstate)
          rw [hhead]
          exact hspec.2
        · exact ih (n + 1) st1
            (AddDevice tree "generic" (trimMarker f "0000:") info) p htail hstate

theorem AddDevice_hasKey (t : DeviceTree) (c i c0 i0 : String)
    (info : DeviceInfo) :
    treeHasKey t c i → treeHasKey (AddDevice t c0 i0 info) c i := by
  rintro ⟨inf, hmem⟩
  by_cases hk : c = c0 ∧ i = i0
  · exact ⟨info, by simp [AddDevice, hk.1, hk.2]⟩
  · refine ⟨inf, List.mem_append_left _ (List.mem_filter.mpr ⟨hmem, ?_⟩)⟩
    simp only [Bool.not_eq_eq_eq_not, Bool.not_true, Bool.and_eq_false_iff,
      beq_eq_false_iff_ne, ne_eq]
    tauto

theorem scanFiles_hasKey (dp : DevicePlugin) (driver : String)
    (fs : List String) :
    ∀ (st : Host) (bound : Int) (tree : DeviceTree) (c i : String),
      treeHasKey tree c i →
      treeHasKey (scanFiles dp driver fs st bound tree).tree c i := by
  induction fs with
  | nil => intro st bound tree c i hk; simpa [scanFiles] using hk
  | cons f rest ih =>
    intro st bound tree c i hk
    simp only [scanFiles]
    split
    · split
      · split
        next hbreak => simpa using hk
        next hbreak =>
          split
          next st1 tr1 e heq =>
            dsimp only
            exact ih st1 (bound + 1) tree c i hk
          next st1 tr1 info heq =>
            dsimp only
            exact ih st1 (bound + 1)
              (AddDevice tree "generic" (trimMarker f "0000:") info) c i
              (AddDevice_hasKey tree c i "generic" (trimMarker f "0000:") info hk)
      · exact ih st bound tree c i hk
    · exact ih st bound tree c i hk

theorem scanDrivers_hasKey (dp : DevicePlugin) (ds : List String) :
    ∀ (st : Host) (bound : Int) (tree : DeviceTree) (c i : String),
      treeHasKey tree c i →
      treeHasKey (scanDrivers dp ds st bound tree).tree c i := by
  induction ds with
  | nil => intro st bound tree c i hk; simpa [scanDrivers] using hk
  | cons d rest ih =>
    intro st bound tree c i hk
    simp only [scanDrivers]
    split
    · exact ih st bound tree c i hk
    next files heq =>
      dsimp only
      exact ih (scanFiles dp d files st bound tree).st
        (scanFiles dp d files st bound tree).bound
        (scanFiles dp d files st bound tree).tree c i
        (scanFiles_hasKey dp d files st bound tree c i hk)

theorem rebindFiles_hasKey (dp : DevicePlugin) (bound need : Int)
    (fs : List String) :
    ∀ (n : Int) (st : Host) (tree : DeviceTree) (c i : String),
      treeHasKey tree c i →
      treeHasKey (rebindFiles dp bound need fs n st tree).tree c i := by
  induction fs with
  | nil => intro n st tree c i hk; simpa [rebindFiles] using hk
  | cons f rest ih =>
    intro n st tree c i hk
    simp only [rebindFiles]
    split
    next hbreak => simpa using hk
    next hbreak =>
      split
      next st1 tr1 e heq =>
        dsimp only
        exact ih (n + 1) st1 tree c i hk
      next st1 tr1 info heq =>
        dsimp only
        exact ih (n + 1) st1
          (AddDevice tree "generic" (trimMarker f "0000:") info) c i
          (AddDevice_hasKey tree c i "generic" (trimMarker f "0000:") info hk)

theorem scan_err_none (dp : DevicePlugin) (st : Host) (tree : DeviceTree) :
    (scan dp st tree).err = none := by
  unfold scan
  split <;> rfl

theorem scan_hasKey (dp : DevicePlugin) (st : Host) (tree : DeviceTree)
    (c i : String) :
    treeHasKey tree c i → treeHasKey (scan dp st tree).tree c i := by
  intro hk
  unfold scan
  split
  · dsimp only
    exact rebindFiles_hasKey dp (scanPhase1 dp st tree).bound
      (dp.maxDevices - (scanPhase1 dp st tree).bound)
      (scanPhase1 dp st tree).filesNew 0 (scanPhase1 dp st tree).st
      (scanPhase1 dp st tree).tree c i
      (scanDrivers_hasKey dp (dp.kernelVfDrivers ++ [dp.dpdkDriver]) st 0 tree c i hk)
  · dsimp only
    exact scanDrivers_hasKey dp (dp.kernelVfDrivers ++ [dp.dpdkDriver]) st 0 tree c i hk

theorem runCycles_length (dp : DevicePlugin) :
    ∀ (n : Nat) (hosts : Nat → Host) (tree : DeviceTree),
      (runCycles dp hosts n tree).length = n := by
  intro n
  induction n with
  | zero => intro hosts tree; simp [runCycles]
  | succ m ih =>
    intro hosts tree
    simp only [runCycles, scan_err_none]
    simp [ih]

theorem runCycles_hasKey (dp : DevicePlugin) :
    ∀ (n : Nat) (hosts : Nat → Host) (tree : DeviceTree) (c i : String),
      treeHasKey tree c i →
      ∀ t ∈ runCycles dp hosts n tree, treeHasKey t c i := by
  intro n
  induction n with
  | zero => intro hosts tree c i hk t ht; simp [runCycles] at ht
  | succ m ih =>
    intro hosts tree c i hk t ht
    simp only [runCycles, scan_err_none] at ht
    rcases List.mem_cons.mp ht with hh | htail
    · rw [hh]; exact scan_hasKey dp (hosts 0) tree c i hk
    · exact ih (fun k => hosts (k + 1)) (scan dp (hosts 0) tree).tree c i
        (scan_hasKey dp (hosts 0) tree c i hk) t htail

theorem unbindWrite_driverDir (st : Host) (a : String) :
    (unbindWrite st a).1.driverDir = st.driverDir := by
  unfold unbindWrite
  split
  · rfl
  · split <;> rfl

theorem newIDWrite_driverDir (st : Host) (driver devid : String) :
    (newIDWrite st driver devid).1.driverDir = st.driverDir := by
  unfold newIDWrite
  split <;> rfl

theorem bindDevice_driverDir (dp : DevicePlugin) (st : Host) (id : String) :
    (bindDevice dp st id).1.driverDir = st.driverDir := by
  have h1 := unbindWrite_driverDir st ("0000:" ++ id)
  rcases hu : unbindWrite st ("0000:" ++ id) with ⟨st1, e | u⟩
  · rw [hu] at h1
    simp only [bindDevice, hu]
    exact h1
  · rw [hu] at h1
    rcases hg : getDeviceID dp st1 ("0000:" ++ id) with e | vfdevID
    · simp only [bindDevice, hu, hg]
      exact h1
    · have h2 := newIDWrite_driverDir st1 dp.dpdkDriver vfdevID
      rcases hn : newIDWrite st1 dp.dpdkDriver vfdevID with ⟨st2, e2 | u2⟩
      · rw [hn] at h2
        simp only [bindDevice, hu, hg, hn]
        exact h2.trans h1
      · rw [hn] at h2
        simp only [bindDevice, hu, hg, hn]
        exact h2.trans h1

theorem getDeviceInfo_driverDir (dp : DevicePlugin) (st : Host) (a : String)
    (c : Int) :
    (getDeviceInfo dp st a c).1.driverDir = st.driverDir := by
  rcases hgid : getDeviceID dp st ("0000:" ++ a) with e | vfdevID
  · simp only [getDeviceInfo, hgid]
  · simp only [getDeviceInfo, hgid]
    cases hval : isValidVfDeviceID vfdevID
    · simp only [hval, Bool.not_false, if_true]
    · simp only [hval, Bool.not_true, Bool.false_eq_true, if_false]
      have hb := bindDevice_driverDir dp st a
      rcases hbd : bindDevice dp st a with ⟨st1, e | u⟩
      · rw [hbd] at hb
        simp only [hbd]
        exact hb
      · rw [hbd] at hb
        rcases hnm : getDpdkDeviceNames dp st1 a with e | devNodes
        · simp only [hnm]
          exact hb
        · simp only [hnm]
          rcases hmp : getDpdkMountPaths dp st1 a with e | devMounts
          · simp only [hmp]
            exact hb
          · simp only [hmp]
            exact hb

theorem scanFiles_driverDir (dp : DevicePlugin) (driver : String)
    (fs : List String) :
    ∀ (st : Host) (bound : Int) (tree : DeviceTree),
      (scanFiles dp driver fs st bound tree).st.driverDir = st.driverDir := by
  induction fs with
  | nil => intro st bound tree; simp [scanFiles]
  | cons f rest ih =>
    intro st bound tree
    simp only [scanFiles]
    split
    · split
      · split
        next hbreak => rfl
        next hbreak =>
          split
          next st1 tr1 e heq =>
            dsimp only
            have h := getDeviceInfo_driverDir dp st (trimMarker f "0000:") (bound + 1)
            rw [heq] at h
            rw [ih st1 (bound + 1) tree]
            exact h
          next st1 tr1 info heq =>
            dsimp only
            have h := getDeviceInfo_driverDir dp st (trimMarker f "0000:") (bound + 1)
            rw [heq] at h
            rw [ih st1 (bound + 1) (AddDevice tree "generic" (trimMarker f "0000:") info)]
            exact h
      · exact ih st bound tree
    · exact ih st bound tree

theorem scanDrivers_skip (dp : DevicePlugin) (d : String) :
    ∀ (l1 l2 : List String) (st : Host) (bound : Int) (tree : DeviceTree),
      st.driverDir d = none →
      scanDrivers dp (l1 ++ d :: l2) st bound tree =
        scanDrivers dp (l1 ++ l2) st bound tree := by
  intro l1
  induction l1 with
  | nil =>
    intro l2 st bound tree hd
    simp only [List.nil_append, scanDrivers, hd]
  | cons e l1t ih =>
    intro l2 st bound tree hd
    simp only [List.cons_append, scanDrivers]
    split
    · exact ih l2 st bound tree hd
    next files heq =>
      have hpres : (scanFiles dp e files st bound tree).st.driverDir d = none := by
        rw [scanFiles_driverDir dp e files st bound tree]
        exact hd
      have hrec := ih l2 (scanFiles dp e files st bound tree).st
        (scanFiles dp e files st bound tree).bound
        (scanFiles dp e files st bound tree).tree hpres
      simp only [List.append_eq] at hrec ⊢
      rw [hrec]

theorem scan_phase1Adds (dp : DevicePlugin) (st : Host) (tree : DeviceTree) :
    (scan dp st tree).phase1Adds = (scanPhase1 dp st tree).adds := by
  unfold scan
  split <;> rfl

theorem scan_dpdkDriverBound (dp : DevicePlugin) (st : Host) (tree : DeviceTree) :
    (scan dp st tree).dpdkDriverBound = (scanPhase1 dp st tree).bound := by
  unfold scan
  split <;> rfl

theorem scan_filesNew (dp : DevicePlugin) (st : Host) (tree : DeviceTree) :
    (scan dp st tree).filesNew = (scanPhase1 dp st tree).filesNew := by
  unfold scan
  split <;> rfl

theorem scan_bindCalls_pre (dp : DevicePlugin) (st : Host) (tree : DeviceTree)
    (x : String) :
    x ∈ (scanPhase1 dp st tree).bindCalls → x ∈ (scan dp st tree).bindCalls := by
  intro hx
  unfold scan
  split
  · dsimp only
    exact List.mem_append_left _ hx
  · exact hx

theorem scan_phase2Adds_mem (dp : DevicePlugin) (st : Host) (tree : DeviceTree)
    (p : String × DeviceInfo) :
    p ∈ (scan dp st tree).phase2Adds → p ∈ (scanPhase2 dp st tree).adds := by
  unfold scan
  split
  · intro h
    exact h
  · intro h
    simp at h

theorem dropWhile_append_all (p : Char → Bool) :
    ∀ (l1 l2 : List Char), (∀ c ∈ l1, p c = true) →
      (l1 ++ l2).dropWhile p = l2.dropWhile p := by
  intro l1
  induction l1 with
  | nil => intro l2 h; simp
  | cons a t ih =>
    intro l2 h
    simp only [List.cons_append, List.dropWhile_cons]
    rw [h a (by simp)]
    simp only [if_true]
    exact ih l2 (fun c hc => h c (by simp [hc]))

theorem dropWhile_nospace_px (core : List Char)
    (hcore : ∀ c ∈ core, isSpaceGo c = false) :
    (core.reverse ++ ['x', '0']).dropWhile isSpaceGo =
      core.reverse ++ ['x', '0'] := by
  cases hrev : core.reverse with
  | nil => simp [List.dropWhile_cons, isSpaceGo]
  | cons a t =>
    have ha : a ∈ core := by
      rw [← List.mem_reverse, hrev]
      simp
    simp only [List.cons_append, List.dropWhile_cons, hcore a ha]
    simp

theorem normalizeDevID_sandwich (ws1 ws2 core : List Char)
    (h1 : ∀ c ∈ ws1, isSpaceGo c = true)
    (h2 : ∀ c ∈ ws2, isSpaceGo c = true)
    (hcore : ∀ c ∈ core, isSpaceGo c = false) :
    normalizeDevID (String.mk (ws1 ++ ('0' :: 'x' :: core) ++ ws2)) =
      String.mk core := by
  unfold normalizeDevID trimChars
  have hd1 : ((ws1 ++ ('0' :: 'x' :: core) ++ ws2).dropWhile isSpaceGo) =
      ('0' :: 'x' :: core) ++ ws2 := by
    rw [List.append_assoc, dropWhile_append_all isSpaceGo ws1 _ h1]
    simp only [List.cons_append, List.dropWhile_cons]
    rw [show isSpaceGo '0' = false from by decide]
    simp
  rw [show (String.mk (ws1 ++ ('0' :: 'x' :: core) ++ ws2)).data =
      ws1 ++ ('0' :: 'x' :: core) ++ ws2 from rfl]
  rw [hd1]
  have hrev : (('0' :: 'x' :: core) ++ ws2).reverse =
      ws2.reverse ++ (core.reverse ++ ['x', '0']) := by
    simp [List.reverse_append, List.reverse_cons, List.append_assoc]
  rw [hrev]
  rw [dropWhile_append_all isSpaceGo ws2.reverse _
    (fun c hc => h2 c (List.mem_reverse.mp hc))]
  rw [dropWhile_nospace_px core hcore]
  have : (core.reverse ++ ['x', '0']).reverse = '0' :: 'x' :: core := by
    simp [List.reverse_append]
  rw [this]
  rw [show stripHex ('0' :: 'x' :: core) = core from rfl]

/-- C1: the claim fails on the code.  For the VF 0000:03:01.0 whose
normalized device ID "1234" is outside the allow-list, getDeviceInfo indeed
returns no error (the empty DeviceInfo with a nil error and no bindDevice
call), but the scan loop does not exclude the nil-error result: it calls
AddDevice on it, so the address surfaces in the cycle's snapshot mapped to
the empty descriptor. -/
theorem c1_unknown_id_device_not_excluded :
    (getDeviceInfo dpC1 hostC1 "03:01.0" 1).2.2 = Except.ok emptyDeviceInfo ∧
    (getDeviceInfo dpC1 hostC1 "03:01.0" 1).2.1 = [] ∧
    treeLookup (scan dpC1 hostC1 NewDeviceTree).tree "generic" "03:01.0" =
      some emptyDeviceInfo ∧
    isValidVfDeviceID (normalizeDevID "0x1234") = false :=
  ⟨rfl, rfl, by decide, by decide⟩

/-- C2: in every scan cycle the total number of descriptors added (phase 1
plus phase 2, hence in particular those for target-driver-bound devices) is
at most the configured maximum device count; and in the scenario with
maximum device count 1 and two valid target-bound VFs, the inventory phase
adds exactly one descriptor and the rebind phase processes zero further
devices. -/
theorem c2_device_cap_respected :
    (∀ (dp : DevicePlugin) (st : Host) (tree : DeviceTree),
      0 ≤ dp.maxDevices →
      ((scan dp st tree).phase1Adds.length : Int) +
        ((scan dp st tree).phase2Adds.length : Int) ≤ dp.maxDevices) ∧
    (scan dpC2 hostC2 NewDeviceTree).phase1Adds.length = 1 ∧
    (scan dpC2 hostC2 NewDeviceTree).phase2Calls = [] ∧
    (scan dpC2 hostC2 NewDeviceTree).phase2Adds = [] := by
  refine ⟨?_, by decide, by decide, by decide⟩
  intro dp st tree hmax
  have h1 := scanDrivers_bounds dp (dp.kernelVfDrivers ++ [dp.dpdkDriver]) st 0 tree
  unfold scan
  split
  next hlt =>
    dsimp only
    have h2 := rebindFiles_adds_le dp (scanPhase1 dp st tree).bound
      (dp.maxDevices - (scanPhase1 dp st tree).bound)
      (scanPhase1 dp st tree).filesNew 0 (scanPhase1 dp st tree).st
      (scanPhase1 dp st tree).tree
    unfold scanPhase1 at hlt h2 ⊢
    unfold scanPhase2 scanPhase1
    omega
  next hge =>
    dsimp only
    unfold scanPhase1 at hge ⊢
    simp only [List.length_nil]
    omega

/-- C2 witness: the cap bound instantiated at the concrete scenario. -/
theorem c2_device_cap_respected_witness :
    ((scan dpC2 hostC2 NewDeviceTree).phase1Adds.length : Int) +
      ((scan dpC2 hostC2 NewDeviceTree).phase2Adds.length : Int) ≤
      dpC2.maxDevices :=
  c2_device_cap_respected.1 dpC2 hostC2 NewDeviceTree (by decide)

/-- C3 counterexample: at a host with one valid kernel-bound VF
(0000:01:00.0 under c6xxvf) and one valid target-bound VF (0000:02:00.0
under vfio-pci), the kernel-driver address is enumerated first (filesNew
lists it before the target-bound one), and the rebinding steps ARE performed
on the target-bound address: bindDevice is invoked on 02:00.0 (twice - once
in the driver loop and once more in the rebind loop) and its unbind control
file is written. -/
theorem c3_counterexample_order_and_rebind :
    (scan dpC3 hostC3 NewDeviceTree).filesNew =
      ["0000:01:00.0", "0000:02:00.0"] ∧
    hostC3.driverDir "c6xxvf" = some ["0000:01:00.0"] ∧
    hostC3.driverDir "vfio-pci" = some ["0000:02:00.0"] ∧
    (scan dpC3 hostC3 NewDeviceTree).bindCalls =
      ["02:00.0", "01:00.0", "02:00.0"] ∧
    "unbind:0000:02:00.0" ∈ (scan dpC3 hostC3 NewDeviceTree).st.writeLog :=
  ⟨by decide, by decide, by decide, by decide, by decide⟩

/-- C3 amended: kernel-driver directories are listed before the target-driver
directory (so target-bound addresses are enumerated last, not first), but
descriptors for target-bound addresses are still the ones created in the
driver loop, each counting immediately against the device cap; and the
unbind/bind rebinding steps ARE performed on every healthy target-bound
descriptor, because the descriptor builder invokes bindDevice
unconditionally. -/
theorem c3_amended_inventory_phase :
    (∀ (dp : DevicePlugin) (st : Host) (tree : DeviceTree)
        (p : String × DeviceInfo),
      p ∈ (scan dp st tree).phase1Adds → p.2.state = Healthy →
      p.1 ∈ (scan dp st tree).bindCalls) ∧
    (∀ (dp : DevicePlugin) (st : Host) (tree : DeviceTree),
      0 < (scan dp st tree).phase1Adds.length →
      ((scan dp st tree).phase1Adds.length : Int) ≤ dp.maxDevices) ∧
    (scan dpC3 hostC3 NewDeviceTree).filesNew =
      ["0000:01:00.0", "0000:02:00.0"] ∧
    (scan dpC3 hostC3 NewDeviceTree).phase1Adds.map Prod.fst = ["02:00.0"] := by
  refine ⟨?_, ?_, by decide, by decide⟩
  · intro dp st tree p hp hstate
    rw [scan_phase1Adds] at hp
    exact scan_bindCalls_pre dp st tree p.1
      (scanDrivers_bind_of_healthy dp (dp.kernelVfDrivers ++ [dp.dpdkDriver])
        st 0 tree p hp hstate)
  · intro dp st tree hpos
    rw [scan_phase1Adds] at hpos ⊢
    have h1 := scanDrivers_bounds dp (dp.kernelVfDrivers ++ [dp.dpdkDriver]) st 0 tree
    unfold scanPhase1 at hpos ⊢
    omega

/-- C3 witness: the amended rebinding fact instantiated at the concrete
target-bound descriptor of the counterexample host. -/
theorem c3_amended_inventory_phase_witness :
    ("02:00.0" : String) ∈ (scan dpC3 hostC3 NewDeviceTree).bindCalls :=
  c3_amended_inventory_phase.1 dpC3 hostC3 NewDeviceTree
    ("02:00.0",
      { state := "Healthy", nodes := ["/dev/vfio/11", "/dev/vfio/vfio"],
        mounts := [], envs := [("QAT1", "0000:02:00.0")] })
    (by decide) (by decide)

/-- C4 counterexample: the device tree is not rebuilt from scratch.  With one
valid target-bound VF in cycle 0 and every driver directory absent in cycle
1, the snapshot notified in cycle 1 still contains the descriptor added in
cycle 0. -/
theorem c4_counterexample_descriptor_retained :
    (Scan dpC4 hostsC4 2).map (fun t => treeLookup t "generic" "03:00.0") =
      [some infoC4, some infoC4] ∧
    hostC4b.driverDir "vfio-pci" = none ∧
    hostC4b.driverDir "c6xxvf" = none :=
  ⟨by decide, by decide, by decide⟩

/-- C4 amended: the device tree is allocated once before the first cycle and
threaded through every cycle; scan only inserts or overwrites entries and
never removes one, so every key present in the tree entering a cycle is still
present in that cycle's snapshot and in all later snapshots. -/
theorem c4_amended_tree_retained :
    (∀ (dp : DevicePlugin) (st : Host) (tree : DeviceTree) (c i : String),
      treeHasKey tree c i → treeHasKey (scan dp st tree).tree c i) ∧
    (∀ (dp : DevicePlugin) (hosts : Nat → Host) (n : Nat) (tree : DeviceTree)
        (c i : String),
      treeHasKey tree c i → ∀ t ∈ runCycles dp hosts n tree, treeHasKey t c i) :=
  ⟨scan_hasKey,
   fun dp hosts n tree c i hk => runCycles_hasKey dp n hosts tree c i hk⟩

/-- C4 witness: a key present in the incoming tree survives a scan over the
empty host. -/
theorem c4_amended_tree_retained_witness :
    treeHasKey (scan dpC4 hostC4b [(("generic", "03:00.0"), infoC4)]).tree
      "generic" "03:00.0" :=
  c4_amended_tree_retained.1 dpC4 hostC4b [(("generic", "03:00.0"), infoC4)]
    "generic" "03:00.0" ⟨infoC4, by simp⟩

/-- C5: the claim fails on the code.  A VF observed under the target driver
during enumeration (0000:02:00.0 listed in the vfio-pci directory and bound
to vfio-pci) is nevertheless passed to bindDevice - once by the driver loop
and once more by the rebind loop - and its unbind and new_id control files
are written, because getDeviceInfo (qat_plugin.go:246) calls bindDevice
unconditionally despite the comment that it is for devices not yet bound to
the DPDK driver. -/
theorem c5_rebinder_invoked_for_target_bound :
    hostC5.driverDir "vfio-pci" = some ["0000:02:00.0"] ∧
    dpC5.dpdkDriver = "vfio-pci" ∧
    hostC5.binding "0000:02:00.0" = some "vfio-pci" ∧
    (scan dpC5 hostC5 NewDeviceTree).bindCalls = ["02:00.0", "02:00.0"] ∧
    (scan dpC5 hostC5 NewDeviceTree).st.writeLog =
      ["unbind:0000:02:00.0", "new_id:vfio-pci:8086 0442",
       "unbind:0000:02:00.0", "new_id:vfio-pci:8086 0442"] :=
  ⟨by decide, by decide, by decide, by decide, by decide⟩

/-- C6 counterexample: for a valid kernel-bound VF whose unbind write
succeeds and whose new_id (bind) write fails, no descriptor is added this
cycle - but the device does NOT remain kernel-bound: the successful unbind
already cleared its binding, so it ends the cycle bound to no driver. -/
theorem c6_counterexample_device_left_unbound :
    hostC6.binding "0000:01:00.0" = some "c6xxvf" ∧
    hostC6.unbindFails "0000:01:00.0" = false ∧
    hostC6.newIDFails "vfio-pci" = true ∧
    (scan dpC6 hostC6 NewDeviceTree).st.writeLog =
      ["unbind:0000:01:00.0", "new_id:vfio-pci:8086 0443"] ∧
    (scan dpC6 hostC6 NewDeviceTree).tree = [] ∧
    (scan dpC6 hostC6 NewDeviceTree).st.binding "0000:01:00.0" = none :=
  ⟨by decide, by decide, by decide, by decide, by decide, by decide⟩

/-- C6 amended: if the unbind write fails, the bind (new_id) write is never
attempted - the write log gains only the unbind attempt - and the returned
error is wrapped with the device address, the binding left untouched; if the
unbind write succeeds but the bind write fails, the error is wrapped with
the device address, no descriptor for the address is added to the snapshot
this cycle, and the device is left bound to no driver (the successful unbind
already detached it from its kernel driver). -/
theorem c6_amended_failure_handling :
    (∀ (dp : DevicePlugin) (st : Host) (id d : String),
      st.binding ("0000:" ++ id) = some d →
      st.unbindFails ("0000:" ++ id) = true →
      bindDevice dp st id =
        ({ st with writeLog := st.writeLog ++ ["unbind:" ++ ("0000:" ++ id)] },
         Except.error ("Unbinding from kernel driver failed for the device " ++
           id ++ ": " ++ "write error"))) ∧
    (∀ (dp : DevicePlugin) (st : Host) (id : String),
      st.binding ("0000:" ++ id) = none →
      bindDevice dp st id =
        ({ st with writeLog := st.writeLog ++ ["unbind:" ++ ("0000:" ++ id)] },
         Except.error ("Unbinding from kernel driver failed for the device " ++
           id ++ ": " ++ "no such file or directory"))) ∧
    (∀ (dp : DevicePlugin) (st : Host) (id d content : String),
      st.binding ("0000:" ++ id) = some d →
      st.unbindFails ("0000:" ++ id) = false →
      st.devFile ("0000:" ++ id) = some content →
      st.newIDFails dp.dpdkDriver = true →
      (bindDevice dp st id).2 =
        Except.error ("Binding to the DPDK driver failed for the device " ++
          id ++ ": " ++ "write error") ∧
      (bindDevice dp st id).1.binding ("0000:" ++ id) = none) ∧
    treeLookup (scan dpC6 hostC6 NewDeviceTree).tree "generic" "01:00.0" =
      none ∧
    (scan dpC6 hostC6 NewDeviceTree).st.binding "0000:01:00.0" = none := by
  refine ⟨?_, ?_, ?_, by decide, by decide⟩
  · intro dp st id d hbind hfail
    simp only [bindDevice, unbindWrite, hbind, hfail, if_true]
  · intro dp st id hbind
    simp only [bindDevice, unbindWrite, hbind]
  · intro dp st id d content hbind hok hdev hnew
    simp only [bindDevice, unbindWrite, hbind, hok, Bool.false_eq_true,
      if_false, getDeviceID, hdev, newIDWrite, hnew, if_true]
    constructor
    · trivial
    · simp

/-- C6 witness: the amended bind-failure behavior instantiated at the
concrete kernel-bound VF of the counterexample host. -/
theorem c6_amended_failure_handling_witness :
    (bindDevice dpC6 hostC6 "01:00.0").2 =
      Except.error ("Binding to the DPDK driver failed for the device " ++
        "01:00.0" ++ ": " ++ "write error") ∧
    (bindDevice dpC6 hostC6 "01:00.0").1.binding ("0000:" ++ "01:00.0") =
      none :=
  c6_amended_failure_handling.2.2.1 dpC6 hostC6 "01:00.0" "c6xxvf" "0x0443"
    (by decide) (by decide) (by decide) (by decide)

/-- C7: every healthy descriptor produced in the rebind phase of a cycle
carries the environment-variable key built from the same dpdkDriverBound
counter value used for the cap check (the counter is not advanced per
rebound device); concretely, with maximum device count 3, one target-bound
VF and two kernel-bound VFs, all three descriptors carry ordinal 1 even
though the rebound devices sit at positions 2 and 3 of the snapshot. -/
theorem c7_rebind_ordinal_reuses_counter :
    (∀ (dp : DevicePlugin) (st : Host) (tree : DeviceTree)
        (p : String × DeviceInfo),
      p ∈ (scan dp st tree).phase2Adds → p.2.state = Healthy →
      p.2.envs = [(envKey (scan dp st tree).dpdkDriverBound, "0000:" ++ p.1)]) ∧
    (scan dpC7 hostC7 NewDeviceTree).dpdkDriverBound = 1 ∧
    (scan dpC7 hostC7 NewDeviceTree).phase1Adds.map (fun p => (p.1, p.2.envs)) =
      [("02:00.0", [("QAT1", "0000:02:00.0")])] ∧
    (scan dpC7 hostC7 NewDeviceTree).phase2Adds.map (fun p => (p.1, p.2.envs)) =
      [("01:00.0", [("QAT1", "0000:01:00.0")]),
       ("01:00.1", [("QAT1", "0000:01:00.1")])] ∧
    (scan dpC7 hostC7 NewDeviceTree).tree.map (fun p => p.1.2) =
      ["02:00.0", "01:00.0", "01:00.1"] := by
  refine ⟨?_, by decide, by decide, by decide, by decide⟩
  intro dp st tree p hp hstate
  have hm := scan_phase2Adds_mem dp st tree p hp
  rw [scan_dpdkDriverBound]
  unfold scanPhase2 at hm
  exact rebindFiles_envs dp (scanPhase1 dp st tree).bound
    (dp.maxDevices - (scanPhase1 dp st tree).bound)
    (scanPhase1 dp st tree).filesNew 0 (scanPhase1 dp st tree).st
    (scanPhase1 dp st tree).tree p hm hstate

/-- C7 witness: the general ordinal fact instantiated at the first rebound
descriptor of the concrete host. -/
theorem c7_rebind_ordinal_reuses_counter_witness :
    ({ state := "Healthy", nodes := ["/dev/vfio/10", "/dev/vfio/vfio"],
       mounts := [], envs := [("QAT1", "0000:01:00.0")] } : DeviceInfo).envs =
      [(envKey (scan dpC7 hostC7 NewDeviceTree).dpdkDriverBound,
        "0000:" ++ "01:00.0")] :=
  c7_rebind_ordinal_reuses_counter.1 dpC7 hostC7 NewDeviceTree
    ("01:00.0",
      { state := "Healthy", nodes := ["/dev/vfio/10", "/dev/vfio/vfio"],
        mounts := [], envs := [("QAT1", "0000:01:00.0")] })
    (by decide) (by decide)

/-- C8: a missing driver directory is a logged skip: the scan of a cycle
returns no error on every host state, a driver whose directory is absent
contributes exactly nothing (scanning with it equals scanning without it),
and in the concrete scenario with the c6xxvf directory absent the scan
completes, only the dh895xccvf device appears, and the loop keeps running. -/
theorem c8_absent_driver_dir_skipped :
    (∀ (dp : DevicePlugin) (st : Host) (tree : DeviceTree),
      (scan dp st tree).err = none) ∧
    (∀ (dp : DevicePlugin) (d : String) (l1 l2 : List String) (st : Host)
        (bound : Int) (tree : DeviceTree),
      st.driverDir d = none →
      scanDrivers dp (l1 ++ d :: l2) st bound tree =
        scanDrivers dp (l1 ++ l2) st bound tree) ∧
    hostC8.driverDir "c6xxvf" = none ∧
    (scan dpC8 hostC8 NewDeviceTree).err = none ∧
    (scan dpC8 hostC8 NewDeviceTree).tree.map (fun p => p.1.2) = ["04:00.0"] ∧
    (Scan dpC8 (fun _ => hostC8) 3).length = 3 := by
  refine ⟨scan_err_none, ?_, by decide, by decide, by decide, by decide⟩
  intro dp d l1 l2 st bound tree hd
  exact scanDrivers_skip dp d l1 l2 st bound tree hd

/-- C8 witness: the skip equivalence instantiated at the concrete host whose
c6xxvf directory is absent. -/
theorem c8_absent_driver_dir_skipped_witness :
    scanDrivers dpC8 (["dh895xccvf"] ++ "c6xxvf" :: ["vfio-pci"]) hostC8 0
        NewDeviceTree =
      scanDrivers dpC8 (["dh895xccvf"] ++ ["vfio-pci"]) hostC8 0 NewDeviceTree :=
  c8_absent_driver_dir_skipped.2.1 dpC8 "c6xxvf" ["dh895xccvf"] ["vfio-pci"]
    hostC8 0 NewDeviceTree (by decide)

/-- C9: the classifier strips surrounding whitespace and one leading "0x"
marker and returns the remainder unchanged; in particular "0x1234" and
"1234" (and the raw sysfs form " 0x1234\n") all normalize to "1234". -/
theorem c9_classifier_round_trip :
    (∀ (ws1 ws2 core : List Char),
      (∀ c ∈ ws1, isSpaceGo c = true) →
      (∀ c ∈ ws2, isSpaceGo c = true) →
      (∀ c ∈ core, isSpaceGo c = false) →
      normalizeDevID (String.mk (ws1 ++ ('0' :: 'x' :: core) ++ ws2)) =
        String.mk core) ∧
    normalizeDevID "0x1234" = "1234" ∧
    normalizeDevID "1234" = "1234" ∧
    getDeviceID dpC9 hostC9 "0000:aa:00.0" = Except.ok "1234" ∧
    getDeviceID dpC9 hostC9 "0000:bb:00.0" = Except.ok "1234" ∧
    getDeviceID dpC9 hostC9 "0000:cc:00.0" = Except.ok "1234" :=
  ⟨normalizeDevID_sandwich, by decide, by decide, rfl, rfl, rfl⟩

/-- C9 witness: the stripping fact instantiated at " 0x1234\n". -/
theorem c9_classifier_round_trip_witness :
    normalizeDevID
        (String.mk ([' '] ++ ('0' :: 'x' :: ['1', '2', '3', '4']) ++ ['\n'])) =
      String.mk ['1', '2', '3', '4'] :=
  c9_classifier_round_trip.1 [' '] ['\n'] ['1', '2', '3', '4']
    (by decide) (by decide) (by decide)

/-- C10: scan returns a nil error for every host state and every incoming
tree, so once entered the loop never exits early: observing it for any
number n of cycles yields exactly n notified snapshots, for every sequence
of host states; and the startup validation exits the process before the
first iteration exactly when the DPDK driver name or some kernel VF driver
name is invalid. -/
theorem c10_scan_loop_runs_forever :
    (∀ (dp : DevicePlugin) (st : Host) (tree : DeviceTree),
      (scan dp st tree).err = none) ∧
    (∀ (dp : DevicePlugin) (hosts : Nat → Host) (n : Nat),
      (Scan dp hosts n).length = n) ∧
    (∀ (d : String) (ks : List String),
      mainExitsEarly d ks = false ↔
        (isValidDpdkDeviceDriver d = true ∧ ks.all isValidKerneDriver = true)) := by
  refine ⟨scan_err_none, ?_, ?_⟩
  · intro dp hosts n
    exact runCycles_length dp n hosts NewDeviceTree
  · intro d ks
    unfold mainExitsEarly
    cases hA : isValidDpdkDeviceDriver d <;>
      simp [List.all_eq_true, List.any_eq_true]

end QATPlugin
